import Mathlib

/-!
Verification development for the `zsec-aws-tools-extensions` repository.

The definitions below are a shallow embedding, translated directly from the
source files `zsec_aws_tools_extensions/deployment.py` and
`zsec_aws_tools_extensions/ui.py`:

* the partial-resource graph completion engine
  (`PartialResource.complete`, `PartialResource.complete_dependencies`,
  `PartialResourceAttribute.complete`, `AWSResourceCollection`);
* the resource recorder and mark-and-sweep garbage collector
  (`collect_garbage`, `delete_by_zrn`, `DynamoResourceRecorder.unmarked`,
  `DynamoResourceRecorder.update_dependency_order`,
  `handle_cli_command`'s garbage-collection guard);
* the apply pass helper (`put_resource_nice`).

Python dictionaries are modelled as association lists whose observable
behaviour is `dlookup` (first match wins, so `dmerge lo hi = hi ++ lo`
gives the entries of `hi` precedence, matching `toolz.merge`).  Object
reference identity is modelled with an allocation counter: every
construction of a realized resource draws a fresh `allocId`, so two
values are reference-identical exactly when their `allocId`s agree and
"no new construction happened" is "the counter did not move".
-/

namespace ZsecExt

/-- A resolved (completed) Python value: scalars, strings, dicts, lists,
a reference to a realized resource (by allocation id, i.e. object
identity), the deferred attribute accessor returned by
`PartialResourceAttribute.complete` (the `lambda _: getattr(...)`
closure, which captures the parent ztid and the attribute name), or the
result of a KeyError-raising dict access. -/
inductive Value : Type where
  | scalar : Int → Value
  | str : String → Value
  | uuid : Nat → Value
  | vmap : List (String × Value) → Value
  | vlist : List Value → Value
  | res : Nat → Value
  | thunk : Nat → String → Value
  | keyError : Value

/-- A realized resource, the result of `self.type_(**combined_kwargs)`.
`allocId` is the Python object identity of this construction. -/
structure Resource where
  allocId : Nat
  typeTag : Nat
  kwargs : List (String × Value)

/-- The mutable state of one completion run: the
`AWSResourceCollection._resources` dict (ztid, resource) plus the
allocation counter that models object identity. -/
structure CState where
  collection : List (Nat × Resource)
  nextAlloc : Nat

/-- Lookup in the realized-resource collection (`collection[ztid]`). -/
def lookupZ : List (Nat × Resource) → Nat → Option Resource
  | [], _ => none
  | (k, r) :: rest, z => if k = z then some r else lookupZ rest z

/-- `collection[ztid] = resource` (later entries shadow earlier ones). -/
def insertZ (c : List (Nat × Resource)) (z : Nat) (r : Resource) :
    List (Nat × Resource) :=
  (z, r) :: c

/-- The comparison performed by Python's fallback membership test on an
`AWSResourceCollection`: `ztid == resource`.  A `uuid.UUID` never
equals an `AWSResource` (`UUID.__eq__` returns NotImplemented for
non-UUIDs and the reflected comparison defaults to object identity), so
this is false for every pair. -/
def ztidEqResource (_z : Nat) (_r : Resource) : Bool := false

/-- Python's `ztid in collection` on an `AWSResourceCollection`: the
class defines no `__contains__`, so the `in` operator falls back to
iterating `__iter__` — which yields the dict's resource *values*, not
its keys — and testing `ztid == resource` on each.  Since a uuid never
equals a resource, this membership test never succeeds. -/
def pyMemberZtid (c : List (Nat × Resource)) (z : Nat) : Bool :=
  (c.map Prod.snd).any (fun r => ztidEqResource z r)

/-- `collection[ztid]` — `__getitem__` *is* key-based; a missing key
raises KeyError, modelled by the designated error value. -/
def getItemValue (c : List (Nat × Resource)) (z : Nat) : Value :=
  match lookupZ c z with
  | some r => Value.res r.allocId
  | none => Value.keyError

/-- Python dict lookup on an association list: first match wins. -/
def dlookup (k : String) : List (String × Value) → Option Value
  | [] => none
  | (k2, v) :: rest => if k2 = k then some v else dlookup k rest

/-- `toolz.merge` of two dicts: entries of `hi` override entries of
`lo`.  With `dlookup` taking the first match, prepending `hi` gives it
precedence. -/
def dmerge (lo hi : List (String × Value)) : List (String × Value) :=
  hi ++ lo

mutual
/-- A `ConfigValue`: the element walked by
`PartialResource.complete_dependencies` — mappings, lists, scalar
leaves, a nested `PartialResource`, or a `PartialResourceAttribute`
(parent node plus attribute name). -/
inductive ConfigElement : Type where
  | scalar : Int → ConfigElement
  | str : String → ConfigElement
  | cmap : List (String × ConfigElement) → ConfigElement
  | clist : List ConfigElement → ConfigElement
  | pres : PartialResource → ConfigElement
  | pattr : PartialResource → String → ConfigElement

/-- `PartialResource(type_, config, name, index_id, ztid, **kwargs)`:
fields in constructor order `ztid`, `name`, `type_`, `index_id`,
`config`, extra kwargs.  Because `name`, `ztid`, `index_id`, `config`
are named parameters of `__init__`, the extra-kwargs dict can never
contain those keys. -/
inductive PartialResource : Type where
  | mk (ztid : Nat) (name : String) (typeTag : Nat) (indexId : Option String)
      (config : Option ConfigElement) (extraKwargs : List (String × Value)) :
      PartialResource
end

/-- Accessor for the `ztid` field. -/
def PartialResource.ztid : PartialResource → Nat
  | .mk z _ _ _ _ _ => z

/-- Accessor for the `name` field. -/
def PartialResource.pname : PartialResource → String
  | .mk _ n _ _ _ _ => n

/-- Accessor for the `config` field. -/
def PartialResource.config : PartialResource → Option ConfigElement
  | .mk _ _ _ _ c _ => c

mutual
/-- Embeds `PartialResource.complete`:
`core_kwargs = dict(name=..., ztid=...)`; if `config is not None` it is
resolved through `complete_dependencies` and added under the key
`config`; then `combined_kwargs = toolz.merge(kwargs, core_kwargs,
self.kwargs)` and `self.type_(**combined_kwargs)` constructs a fresh
object.  Note the source never passes `index_id` to the constructor. -/
def PartialResource.complete (s : CState) (ctx : List (String × Value)) :
    PartialResource → Resource × CState
  | .mk z nm tt _iid cfgOpt extra =>
    match cfgOpt with
    | none =>
        let core := [("name", Value.str nm), ("ztid", Value.uuid z)]
        (⟨s.nextAlloc, tt, dmerge (dmerge ctx core) extra⟩,
         ⟨s.collection, s.nextAlloc + 1⟩)
    | some cfg =>
        let p1 := completeDependencies s ctx cfg
        let core := [("name", Value.str nm), ("ztid", Value.uuid z),
                     ("config", p1.1)]
        (⟨p1.2.nextAlloc, tt, dmerge (dmerge ctx core) extra⟩,
         ⟨p1.2.collection, p1.2.nextAlloc + 1⟩)
termination_by p => (sizeOf p, 0)

/-- Embeds `PartialResource.complete_dependencies`: structural walk over
mappings and lists; for a nested `PartialResource` the guard is
`if element.ztid not in collection` — Python's value-iterating
membership test (`pyMemberZtid`), which never succeeds — so the nested
node is always completed anew and the collection entry overwritten,
after which `collection[element.ztid]` (key-based) is returned; a
`PartialResourceAttribute` delegates to its own `complete`; anything
else passes through unchanged. -/
def completeDependencies (s : CState) (ctx : List (String × Value)) :
    ConfigElement → Value × CState
  | .scalar n => (Value.scalar n, s)
  | .str t => (Value.str t, s)
  | .cmap entries =>
      let p := cdEntries s ctx entries
      (Value.vmap p.1, p.2)
  | .clist elts =>
      let p := cdElts s ctx elts
      (Value.vlist p.1, p.2)
  | .pres p =>
      if pyMemberZtid s.collection p.ztid then
        (getItemValue s.collection p.ztid, s)
      else
        let pr := PartialResource.complete s ctx p
        let c2 := insertZ pr.2.collection p.ztid pr.1
        (getItemValue c2 p.ztid, ⟨c2, pr.2.nextAlloc⟩)
  | .pattr p attrName => partialResourceAttributeComplete s ctx p attrName
termination_by e => (sizeOf e, 2)

/-- Embeds `PartialResourceAttribute.complete`: the guard
`if self.parent.ztid not in collection` again uses Python's
value-iterating membership test, which never succeeds, so the parent is
completed anew (a fresh construction) and stored on every call; the
deferred accessor `lambda _: getattr(collection[parent.ztid], name)` is
returned. -/
def partialResourceAttributeComplete (s : CState)
    (ctx : List (String × Value)) (parent : PartialResource)
    (attrName : String) : Value × CState :=
  if pyMemberZtid s.collection parent.ztid then
    (Value.thunk parent.ztid attrName, s)
  else
    let pr := PartialResource.complete s ctx parent
    (Value.thunk parent.ztid attrName,
     ⟨insertZ pr.2.collection parent.ztid pr.1, pr.2.nextAlloc⟩)
termination_by (sizeOf parent, 1)

/-- The mapping clause of `complete_dependencies`: resolve each value in
insertion order, threading the collection state. -/
def cdEntries (s : CState) (ctx : List (String × Value)) :
    List (String × ConfigElement) → List (String × Value) × CState
  | [] => ([], s)
  | (k, v) :: rest =>
      let p1 := completeDependencies s ctx v
      let p2 := cdEntries p1.2 ctx rest
      ((k, p1.1) :: p2.1, p2.2)
termination_by l => (sizeOf l, 2)

/-- The list clause of `complete_dependencies`: resolve each element in
order, threading the collection state. -/
def cdElts (s : CState) (ctx : List (String × Value)) :
    List ConfigElement → List Value × CState
  | [] => ([], s)
  | e :: rest =>
      let p1 := completeDependencies s ctx e
      let p2 := cdElts p1.2 ctx rest
      (p1.1 :: p2.1, p2.2)
termination_by l => (sizeOf l, 2)
end

mutual
/-- A `ConfigValue` tree is reference-free when it contains only
scalars, strings, mappings and lists — no nested `PartialResource` and
no `PartialResourceAttribute`. -/
def refFree : ConfigElement → Bool
  | .scalar _ => true
  | .str _ => true
  | .cmap entries => refFreeEntries entries
  | .clist elts => refFreeElts elts
  | .pres _ => false
  | .pattr _ _ => false

/-- `refFree` on the entries of a mapping. -/
def refFreeEntries : List (String × ConfigElement) → Bool
  | [] => true
  | (_, v) :: rest => refFree v && refFreeEntries rest

/-- `refFree` on the elements of a list. -/
def refFreeElts : List ConfigElement → Bool
  | [] => true
  | e :: rest => refFree e && refFreeElts rest
end

mutual
/-- The identity embedding of a reference-free `ConfigValue` tree into
resolved values: what a structural round-trip must return. -/
def embed : ConfigElement → Value
  | .scalar n => Value.scalar n
  | .str t => Value.str t
  | .cmap entries => Value.vmap (embedEntries entries)
  | .clist elts => Value.vlist (embedElts elts)
  | .pres p => Value.res p.ztid
  | .pattr p a => Value.thunk p.ztid a

/-- `embed` on the entries of a mapping. -/
def embedEntries : List (String × ConfigElement) → List (String × Value)
  | [] => []
  | (k, v) :: rest => (k, embed v) :: embedEntries rest

/-- `embed` on the elements of a list. -/
def embedElts : List ConfigElement → List Value
  | [] => []
  | e :: rest => embed e :: embedElts rest
end

/-- Observation: the key list of a resolved mapping value. -/
def mapKeysOf : Value → Option (List String)
  | Value.vmap es => some (es.map Prod.fst)
  | _ => none

/-- Observation: the length of a resolved list value. -/
def listLenOf : Value → Option Nat
  | Value.vlist es => some es.length
  | _ => none

/-!  ## Garbage collection and the resource recorder  -/

/-- One persisted row of the `resources_by_zrn` table, together with
the observable properties of the resource that
`deserialize_resource` rehydrates from it.  `attrs` holds the string
attributes that scan filters consult (`deployment_id`, `manager`,
`account_number`, ...).  `isRole` models
`isinstance(resource, zsec_aws_tools.iam.Role)`; `hasTeardown` models
whether the resource exposes a resource-specific teardown-precondition
capability. -/
structure Record where
  zrn : String
  ztid : Nat
  rname : String
  attrs : List (String × String)
  dependencyOrder : Int
  isRole : Bool
  hasTeardown : Bool
deriving DecidableEq

/-- String-attribute lookup on a record (DynamoDB `Attr(k)`): a missing
attribute never equals anything. -/
def slookup (k : String) : List (String × String) → Option String
  | [] => none
  | (k2, v) :: rest => if k2 = k then some v else slookup k rest

/-- The scan `FilterExpression` of `DynamoResourceRecorder.unmarked`:
`~Attr('deployment_id').eq(deployment_id)` conjoined with
`Attr(kk).eq(vv)` for every scope entry. -/
def unmarkedFilter (scope : List (String × String)) (deploymentId : String)
    (r : Record) : Bool :=
  (!(slookup "deployment_id" r.attrs == some deploymentId)) &&
    scope.all (fun kv => slookup kv.fst r.attrs == some kv.snd)

/-- `sorted(items, key=itemgetter('dependency_order'),
reverse=high_to_low_dependency_order)`: a stable sort on the
`dependency_order` field, descending when `highToLow`. -/
def sortRecords (highToLow : Bool) (items : List Record) : List Record :=
  if highToLow then
    List.insertionSort (fun a b => b.dependencyOrder ≤ a.dependencyOrder) items
  else
    List.insertionSort (fun a b => a.dependencyOrder ≤ b.dependencyOrder) items

/-- The assertion message raised by `DynamoResourceRecorder.unmarked`
when the scan response carries a `LastEvaluatedKey`. -/
def pagMsg : String := "needs pagination, violating behavior specified in documentation"

/-- Embeds `DynamoResourceRecorder.unmarked`: scan the table with the
unmarked filter; if the response indicates more pages
(`LastEvaluatedKey` present, modelled by `truncated`), the assertion
fails before anything is yielded; otherwise yield the matches sorted by
`dependency_order`. -/
def unmarked (table : List Record) (truncated : Bool)
    (scope : List (String × String)) (deploymentId : String)
    (highToLow : Bool) : Except String (List Record) :=
  if truncated then Except.error pagMsg
  else Except.ok (sortRecords highToLow
    (table.filter (unmarkedFilter scope deploymentId)))

/-- A call made by the garbage collector to a collaborator: a
`recorder.update_dependency_order(zrn, new_order)` call, the two
IAM-Role teardown calls, a `resource.delete(not_exists_ok=True)` call,
or a `recorder.delete_record_by_zrn(zrn)` call. -/
inductive GcEffect : Type where
  | updateOrder : String → Int → GcEffect
  | detachAllPolicies : String → GcEffect
  | deleteInlinePolicies : String → GcEffect
  | deleteResource : String → GcEffect
  | deleteRecord : String → GcEffect
deriving DecidableEq

/-- Embeds `delete_by_zrn`: `isinstance(resource, zaws_iam.Role)` is a
hardcoded check on the concrete type — when it holds, detach all
policies and delete inline policies; then delete the resource, then
delete its record. -/
def deleteByZrn (r : Record) : List GcEffect :=
  (if r.isRole then
     [GcEffect.detachAllPolicies r.zrn, GcEffect.deleteInlinePolicies r.zrn]
   else []) ++
  [GcEffect.deleteResource r.zrn, GcEffect.deleteRecord r.zrn]

/-- The dry-run loop of `collect_garbage`: `delta` starts as `None` and
is fixed from the first record (`max_marked + 1 - dependency_order`);
each record gets `recorder.update_dependency_order(zrn,
dependency_order + delta)`. -/
def dryLoop (maxMarked : Int) : Option Int → List Record → List GcEffect
  | _, [] => []
  | dOpt, r :: rest =>
    let delta := match dOpt with
      | none => maxMarked + 1 - r.dependencyOrder
      | some d => d
    GcEffect.updateOrder r.zrn (r.dependencyOrder + delta) ::
      dryLoop maxMarked (some delta) rest

/-- The real-sweep loop of `collect_garbage`: `delete_by_zrn` on each
record in sequence. -/
def realLoop : List Record → List GcEffect
  | [] => []
  | r :: rest => deleteByZrn r ++ realLoop rest

/-- Embeds `collect_garbage` as the trace of collaborator calls it
issues: dry mode iterates `unmarked(..., high_to_low=False)` and only
updates dependency orders; real mode iterates
`unmarked(..., high_to_low=True)` and calls `delete_by_zrn`.  There is
no inspection of `scope` anywhere in this function. -/
def collectGarbage (table : List Record) (truncated : Bool)
    (scope : List (String × String)) (deploymentId : String)
    (maxMarked : Int) (dry : Bool) : Except String (List GcEffect) :=
  if dry then
    match unmarked table truncated scope deploymentId false with
    | Except.error e => Except.error e
    | Except.ok items => Except.ok (dryLoop maxMarked none items)
  else
    match unmarked table truncated scope deploymentId true with
    | Except.error e => Except.error e
    | Except.ok items => Except.ok (realLoop items)

/-- True when the garbage collector ran its sweep rather than being
refused. -/
def gcProceeds (x : Except String (List GcEffect)) : Bool :=
  match x with
  | Except.ok _ => true
  | Except.error _ => false

/-- The guard in `handle_cli_command` ahead of any garbage-collection
work: `if support_gc: assert manager and resources_by_zrn_table`.  The
assert runs before any recorder query is built, so a falsy `manager`
is refused before any record is read.  (Python truthiness of the
manager string: the empty string is falsy.) -/
def handleCliGcGuard (supportGc : Bool) (manager : String)
    (haveTable : Bool) : Except String Unit :=
  if supportGc then
    if (manager != "") && haveTable then Except.ok ()
    else Except.error "assert manager and resources_by_zrn_table"
  else Except.ok ()

/-- A dynamically-typed Python value passed to
`update_dependency_order`: the call site in `collect_garbage` passes a
`str` (the zrn) and an `int` (the new order); the implementation
expects an `AWSResource` (modelled with the zrn derivable from its
session, region and ztid). -/
inductive PyObj : Type where
  | pstr : String → PyObj
  | pint : Int → PyObj
  | pawsres : String → PyObj
deriving DecidableEq

/-- The AttributeError raised when `get_account_id(resource.session)`
is evaluated on a value that is not a resource object. -/
def attrErrMsg : String := "AttributeError: int object has no attribute session"

/-- Embeds `DynamoResourceRecorder.update_dependency_order(self,
dependency_order, resource)`: it computes the zrn from
`resource.session`, `resource.region_name` and `resource.ztid` and
issues `update_item(Key zrn, dependency_order := dependency_order)`.
Accessing `.session` on a non-resource argument raises. -/
def dynamoUpdateDependencyOrder (dependencyOrder : PyObj) (resource : PyObj) :
    Except String (String × PyObj) :=
  match resource with
  | PyObj.pawsres zrn => Except.ok (zrn, dependencyOrder)
  | _ => Except.error attrErrMsg

/-- The dry-run loop of `collect_garbage` composed with the
`DynamoResourceRecorder` implementation of `update_dependency_order`:
the call site passes `(zrn, dependency_order + delta)` positionally, so
the implementation receives the zrn as `dependency_order` and the int
as `resource`.  Returns the `update_item` calls persisted before the
first failure, and the failure if one occurred. -/
def dynamoDryLoop (maxMarked : Int) :
    Option Int → List Record → List (String × PyObj) × Option String
  | _, [] => ([], none)
  | dOpt, r :: rest =>
    let delta := match dOpt with
      | none => maxMarked + 1 - r.dependencyOrder
      | some d => d
    match dynamoUpdateDependencyOrder (PyObj.pstr r.zrn)
        (PyObj.pint (r.dependencyOrder + delta)) with
    | Except.error e => ([], some e)
    | Except.ok upd =>
        let p := dynamoDryLoop maxMarked (some delta) rest
        (upd :: p.1, p.2)

/-- A full dry-run garbage collection against the
`DynamoResourceRecorder`: the `unmarked` truncation assertion, then the
dry loop with the recorder's actual `update_dependency_order`. -/
def dynamoDryCollectGarbage (table : List Record) (truncated : Bool)
    (scope : List (String × String)) (deploymentId : String)
    (maxMarked : Int) : List (String × PyObj) × Option String :=
  if truncated then ([], some pagMsg)
  else dynamoDryLoop maxMarked none
    (sortRecords false (table.filter (unmarkedFilter scope deploymentId)))

/-!  ## The apply pass (`put_resource_nice`)  -/

/-- The `config` attribute of a realized resource as seen by
`put_resource_nice`: either `None` or a mapping; Python truthiness
makes `None` and the empty mapping falsy. -/
inductive PyConfig : Type where
  | noneV : PyConfig
  | dict : List (String × Value) → PyConfig

/-- Python truthiness of the `config` attribute. -/
def PyConfig.truthy : PyConfig → Bool
  | PyConfig.noneV => false
  | PyConfig.dict d => !d.isEmpty

/-- The observable fields of the `AWSResource` handed to
`put_resource_nice`: its config, and the value of the `exists`
observation after `put` returns. -/
structure UIResource where
  ztid : Nat
  rname : String
  config : PyConfig
  existsAfterPut : Bool

/-- The recorder lambda (`put_resource_record`): a function resource
with an `exists` observation. -/
structure RecorderFn where
  fnExists : Bool
deriving DecidableEq

/-- A call made by `put_resource_nice`: `resource.put(force=force)` or
the `put_resource_record.invoke(...)` that persists the record. -/
inductive ApplyEffect : Type where
  | put : Nat → Bool → ApplyEffect
  | invokeRecord : Nat → Int → String → String → ApplyEffect
deriving DecidableEq

/-- Embeds `put_resource_nice`: nothing at all happens unless
`resource.config` is truthy; then `resource.put(force=force)` runs, and
the record is persisted exactly when the recorder lambda is present,
the lambda exists, and the resource is observed to exist after the
put. -/
def putResourceNice (manager : String) (r : UIResource)
    (dependencyOrder : Int) (force : Bool) (recordFn : Option RecorderFn)
    (deploymentId : String) : List ApplyEffect :=
  if r.config.truthy then
    ApplyEffect.put r.ztid force ::
      (match recordFn with
       | some f =>
           if f.fnExists && r.existsAfterPut then
             [ApplyEffect.invokeRecord r.ztid dependencyOrder manager
               deploymentId]
           else []
       | none => [])
  else []

/-!  ## Statements taken from the specification, for comparison  -/

/-- The per-item deletion sequence claimed by the specification for the
real sweep: teardown preconditions run when the resource exposes them
(dispatch on the resource's own capability, `hasTeardown`), then delete
the resource, then delete its record.  This follows the words of the
spec; the source's `delete_by_zrn` is `deleteByZrn` above, which
dispatches on `isinstance(resource, zaws_iam.Role)` instead. -/
def specDeleteSeq (r : Record) : List GcEffect :=
  (if r.hasTeardown then
     [GcEffect.detachAllPolicies r.zrn, GcEffect.deleteInlinePolicies r.zrn]
   else []) ++
  [GcEffect.deleteResource r.zrn, GcEffect.deleteRecord r.zrn]

/-- The real-sweep trace claimed by the specification: `specDeleteSeq`
on each unmarked record in sequence. -/
def specRealLoop : List Record → List GcEffect
  | [] => []
  | r :: rest => specDeleteSeq r ++ specRealLoop rest

/-- Claim C6 exactly as stated: the real sweep processes the unmarked
records in strictly descending `dependency_order`, and each item
undergoes capability-dispatched teardown preconditions, then resource
deletion, then record deletion. -/
def c6ClaimAsStated (table : List Record) (scope : List (String × String))
    (deploymentId : String) (maxMarked : Int) : Prop :=
  ∃ items, unmarked table false scope deploymentId true = Except.ok items ∧
    List.Chain' (fun a b => b.dependencyOrder < a.dependencyOrder) items ∧
    collectGarbage table false scope deploymentId maxMarked false =
      Except.ok (specRealLoop items)

/-!  ## Instances and sample data  -/

instance recAscTotal :
    IsTotal Record (fun a b => a.dependencyOrder ≤ b.dependencyOrder) :=
  ⟨fun a b => Int.le_total _ _⟩

instance recAscTrans :
    IsTrans Record (fun a b => a.dependencyOrder ≤ b.dependencyOrder) :=
  ⟨fun _ _ _ h1 h2 => le_trans h1 h2⟩

instance recDescTotal :
    IsTotal Record (fun a b => b.dependencyOrder ≤ a.dependencyOrder) :=
  ⟨fun a b => Int.le_total _ _⟩

instance recDescTrans :
    IsTrans Record (fun a b => b.dependencyOrder ≤ a.dependencyOrder) :=
  ⟨fun _ _ _ h1 h2 => le_trans h2 h1⟩

/-- A sample realized resource already stored in a collection. -/
def sampleResource : Resource := ⟨0, 3, []⟩

/-- A sample completion state whose collection already holds ztid 5. -/
def sampleState : CState := ⟨[(5, sampleResource)], 1⟩

/-- A sample partial resource with ztid 5 (already realized in
`sampleState`). -/
def samplePartial : PartialResource :=
  PartialResource.mk 5 "alpha" 3 none none []

/-- A stale record (deployment `old`) with no manager attribute
relevant below; dependency order 3. -/
def recStale : Record :=
  ⟨"z1", 11, "r1", [("deployment_id", "old"), ("manager", "m")], 3,
   false, false⟩

/-- A stale record used by the scope counterexample. -/
def recNoMgr : Record :=
  ⟨"z0", 10, "r0", [("deployment_id", "old")], 4, false, false⟩

/-- A stale record whose resource exposes a teardown capability but is
not an IAM Role; dependency order 5. -/
def recCap : Record :=
  ⟨"a", 21, "ra", [("deployment_id", "old")], 5, false, true⟩

/-- A stale record with the same dependency order 5 as `recCap`. -/
def recTie : Record :=
  ⟨"b", 22, "rb", [("deployment_id", "old")], 5, false, false⟩

/-!  ## Helper lemmas  -/

/-- Lookup across a dict merge: the left block is consulted first. -/
theorem dlookup_append (k : String) (hi lo : List (String × Value)) :
    dlookup k (hi ++ lo) =
      (dlookup k hi).orElse (fun _ => dlookup k lo) := by
  induction hi with
  | nil => simp [dlookup]
  | cons hd tl ih =>
    obtain ⟨k2, v⟩ := hd
    by_cases h : k2 = k <;> simp [dlookup, h, ih]

/-- Once `delta` is fixed, the dry loop updates every remaining record
by that same delta. -/
theorem dryLoop_some (maxMarked delta : Int) (l : List Record) :
    dryLoop maxMarked (some delta) l =
      l.map (fun r =>
        GcEffect.updateOrder r.zrn (r.dependencyOrder + delta)) := by
  induction l with
  | nil => simp [dryLoop]
  | cons hd tl ih => simp [dryLoop, ih]

/-- Resolving the entries of a mapping preserves the key list. -/
theorem cdEntries_keys (ctx : List (String × Value)) :
    ∀ (l : List (String × ConfigElement)) (s : CState),
      (cdEntries s ctx l).1.map Prod.fst = l.map Prod.fst := by
  intro l
  induction l with
  | nil => intro s; simp [cdEntries]
  | cons hd tl ih =>
    intro s
    obtain ⟨k, v⟩ := hd
    simp [cdEntries, ih]

/-- Resolving the elements of a list preserves its length. -/
theorem cdElts_len (ctx : List (String × Value)) :
    ∀ (l : List ConfigElement) (s : CState),
      (cdElts s ctx l).1.length = l.length := by
  intro l
  induction l with
  | nil => intro s; simp [cdElts]
  | cons hd tl ih => intro s; simp [cdElts, ih]

/-- Resolution of a reference-free tree is the identity embedding and
leaves the state untouched (strong induction on the tree size). -/
theorem roundTripAux : ∀ k : Nat,
    (∀ e : ConfigElement, sizeOf e ≤ k → refFree e = true →
      ∀ (s : CState) (ctx : List (String × Value)),
        completeDependencies s ctx e = (embed e, s)) ∧
    (∀ l : List (String × ConfigElement), sizeOf l ≤ k →
      refFreeEntries l = true →
      ∀ (s : CState) (ctx : List (String × Value)),
        cdEntries s ctx l = (embedEntries l, s)) ∧
    (∀ l : List ConfigElement, sizeOf l ≤ k → refFreeElts l = true →
      ∀ (s : CState) (ctx : List (String × Value)),
        cdElts s ctx l = (embedElts l, s)) := by
  intro k
  induction k with
  | zero =>
    refine ⟨fun e he => ?_, fun l hl => ?_, fun l hl => ?_⟩
    · exact absurd he (by cases e <;> simp)
    · exact absurd hl (by cases l <;> simp +arith)
    · exact absurd hl (by cases l <;> simp +arith)
  | succ n ih =>
    obtain ⟨ihE, ihM, ihL⟩ := ih
    refine ⟨fun e he hrf s ctx => ?_, fun l hl hrf s ctx => ?_,
            fun l hl hrf s ctx => ?_⟩
    · cases e with
      | scalar v => simp [completeDependencies, embed]
      | str t => simp [completeDependencies, embed]
      | cmap entries =>
        have h1 : sizeOf entries ≤ n := by
          simp at he; omega
        have h2 : refFreeEntries entries = true := by
          simpa [refFree] using hrf
        simp [completeDependencies, embed, ihM entries h1 h2 s ctx]
      | clist elts =>
        have h1 : sizeOf elts ≤ n := by
          simp at he; omega
        have h2 : refFreeElts elts = true := by
          simpa [refFree] using hrf
        simp [completeDependencies, embed, ihL elts h1 h2 s ctx]
      | pres p => exact absurd hrf (by simp [refFree])
      | pattr p a => exact absurd hrf (by simp [refFree])
    · cases l with
      | nil => simp [cdEntries, embedEntries]
      | cons hd tl =>
        obtain ⟨k2, v⟩ := hd
        have hb : refFree v = true ∧ refFreeEntries tl = true := by
          simpa [refFreeEntries, Bool.and_eq_true] using hrf
        have h1 : sizeOf v ≤ n := by
          simp at hl; omega
        have h2 : sizeOf tl ≤ n := by
          simp at hl; omega
        simp [cdEntries, embedEntries, ihE v h1 hb.1 s ctx,
          ihM tl h2 hb.2 s ctx]
    · cases l with
      | nil => simp [cdElts, embedElts]
      | cons hd tl =>
        have hb : refFree hd = true ∧ refFreeElts tl = true := by
          simpa [refFreeElts, Bool.and_eq_true] using hrf
        have h1 : sizeOf hd ≤ n := by
          simp at hl; omega
        have h2 : sizeOf tl ≤ n := by
          simp at hl; omega
        simp [cdElts, embedElts, ihE hd h1 hb.1 s ctx, ihL tl h2 hb.2 s ctx]

/-- The membership test used by the completion guards never succeeds:
no ztid ever equals a realized resource object. -/
theorem pyMemberZtid_false (c : List (Nat × Resource)) (z : Nat) :
    pyMemberZtid c z = false := by
  simp [pyMemberZtid, ztidEqResource]

/-!  ## Claim theorems  -/

/-- C1: the code does not memoize — the claim is right and the code is
wrong.  `AWSResourceCollection` defines no `__contains__`, so the guard
`element.ztid not in collection` iterates the collection's resource
values, never matches a ztid (first conjunct), and therefore always
re-completes.  At the failing input — a collection already holding
ztid 5 realized as allocation 0 — `complete_dependencies` on a
reference to ztid 5 constructs a second realized object (fresh
allocation id 1, not reference-identical to the stored one), bumps the
allocation counter, and overwrites the entry; likewise
`PartialResourceAttribute.complete` re-completes its already-realized
parent. -/
theorem c1_no_memoization_code_bug :
    (∀ (c : List (Nat × Resource)) (z : Nat), pyMemberZtid c z = false) ∧
    completeDependencies sampleState [] (ConfigElement.pres samplePartial) =
      (Value.res 1,
       ⟨[(5, ⟨1, 3, [("name", Value.str "alpha"), ("ztid", Value.uuid 5)]⟩),
         (5, sampleResource)], 2⟩) ∧
    Value.res 1 ≠ Value.res sampleResource.allocId ∧
    partialResourceAttributeComplete sampleState [] samplePartial "arn" =
      (Value.thunk 5 "arn",
       ⟨[(5, ⟨1, 3, [("name", Value.str "alpha"), ("ztid", Value.uuid 5)]⟩),
         (5, sampleResource)], 2⟩) := by
  refine ⟨pyMemberZtid_false, ?_, ?_, ?_⟩
  · simp [completeDependencies, PartialResource.complete,
      partialResourceAttributeComplete, pyMemberZtid_false, samplePartial,
      PartialResource.ztid, sampleState, sampleResource, insertZ,
      getItemValue, lookupZ, dmerge]
  · simp [sampleResource]
  · simp [completeDependencies, PartialResource.complete,
      partialResourceAttributeComplete, pyMemberZtid_false, samplePartial,
      PartialResource.ztid, sampleState, sampleResource, insertZ,
      getItemValue, lookupZ, dmerge]

/-- C2: for a node with non-`None` config, the constructor keyword
arguments are `toolz.merge(context, core, extra)` — extra kwargs win
over the core fields `name`/`ztid`/`config`, which win over the
caller-supplied context; and since Python binds `name` and `ztid` to
named `__init__` parameters, the extra-kwargs dict never carries those
keys (the hypotheses), so the constructed resource always receives the
node's own `name` and `ztid`. -/
theorem c2_merge_precedence (s : CState)
    (ctx extra : List (String × Value)) (z : Nat) (nm : String) (tt : Nat)
    (iid : Option String) (cfg : ConfigElement)
    (hn : dlookup "name" extra = none)
    (hz : dlookup "ztid" extra = none) :
    (∀ k, dlookup k
        (PartialResource.complete s ctx
          (PartialResource.mk z nm tt iid (some cfg) extra)).1.kwargs =
      (dlookup k extra).orElse (fun _ =>
        (dlookup k [("name", Value.str nm), ("ztid", Value.uuid z),
          ("config", (completeDependencies s ctx cfg).1)]).orElse (fun _ =>
            dlookup k ctx))) ∧
    dlookup "name"
        (PartialResource.complete s ctx
          (PartialResource.mk z nm tt iid (some cfg) extra)).1.kwargs =
      some (Value.str nm) ∧
    dlookup "ztid"
        (PartialResource.complete s ctx
          (PartialResource.mk z nm tt iid (some cfg) extra)).1.kwargs =
      some (Value.uuid z) := by
  have hk : ∀ k, dlookup k
      (PartialResource.complete s ctx
        (PartialResource.mk z nm tt iid (some cfg) extra)).1.kwargs =
      (dlookup k extra).orElse (fun _ =>
        (dlookup k [("name", Value.str nm), ("ztid", Value.uuid z),
          ("config", (completeDependencies s ctx cfg).1)]).orElse (fun _ =>
            dlookup k ctx)) := by
    intro k
    simp only [PartialResource.complete, dmerge]
    rw [dlookup_append, dlookup_append]
  refine ⟨hk, ?_, ?_⟩
  · rw [hk "name", hn]
    simp [dlookup]
  · rw [hk "ztid", hz]
    simp [dlookup]

/-- Witness for C2 at a node whose extra kwargs hold only a
`region_name` entry. -/
theorem c2_merge_precedence_witness :
    dlookup "name" [("region_name", Value.str "us-east-1")] = none ∧
    dlookup "ztid" [("region_name", Value.str "us-east-1")] = none ∧
    dlookup "name"
        (PartialResource.complete ⟨[], 0⟩ [("session", Value.scalar 9)]
          (PartialResource.mk 5 "alpha" 3 none (some (ConfigElement.scalar 1))
            [("region_name", Value.str "us-east-1")])).1.kwargs =
      some (Value.str "alpha") :=
  ⟨rfl, rfl,
    (c2_merge_precedence ⟨[], 0⟩ [("session", Value.scalar 9)]
      [("region_name", Value.str "us-east-1")] 5 "alpha" 3 none
      (ConfigElement.scalar 1) rfl rfl).2.1⟩

/-- C7, counterexample: the claim says a `config = None` node is
constructed from a kwarg set including its `index_id`, but
`PartialResource.complete` never passes `index_id` to the constructor —
here a node carrying `index_id = "idx7"` yields a resource whose kwargs
have no `index_id` key at all. -/
theorem c7_counterexample :
    dlookup "index_id"
        ((PartialResource.complete ⟨[], 0⟩ []
          (PartialResource.mk 7 "beta" 0 (some "idx7") none [])).1.kwargs) =
      none ∧
    dlookup "index_id"
        ((PartialResource.complete ⟨[], 0⟩ []
          (PartialResource.mk 7 "beta" 0 (some "idx7") none [])).1.kwargs) ≠
      some (Value.str "idx7") := by
  constructor
  · simp [PartialResource.complete, dmerge, dlookup]
  · simp [PartialResource.complete, dmerge, dlookup]

/-- C7, amended: for a node with `config = None`, `complete` constructs
the resource directly from `{name, ztid}` merged over the caller
context and under the node's extra kwargs — `index_id` is not passed —
with no dependency resolution: the collection is unchanged (no
dependency persisted, no nested node completed) and exactly one object
is allocated. -/
theorem c7_none_config_direct (s : CState) (ctx : List (String × Value))
    (z : Nat) (nm : String) (tt : Nat) (iid : Option String)
    (extra : List (String × Value)) :
    PartialResource.complete s ctx
        (PartialResource.mk z nm tt iid none extra) =
      (⟨s.nextAlloc, tt,
        dmerge (dmerge ctx [("name", Value.str nm), ("ztid", Value.uuid z)])
          extra⟩,
       ⟨s.collection, s.nextAlloc + 1⟩) ∧
    (PartialResource.complete s ctx
        (PartialResource.mk z nm tt iid none extra)).2.collection =
      s.collection ∧
    (PartialResource.complete s ctx
        (PartialResource.mk z nm tt iid none extra)).2.nextAlloc =
      s.nextAlloc + 1 := by
  refine ⟨?_, ?_, ?_⟩ <;> simp [PartialResource.complete]

/-- C8: the ConfigValue resolver preserves structure — a mapping
resolves to a mapping with the identical key list, a list resolves to a
list of the same length (elements resolved in order), scalar and string
leaves pass through unchanged with the state untouched, and a tree free
of node references and attribute projections resolves to its identity
embedding without touching the state. -/
theorem c8_structure_preserved (s : CState) (ctx : List (String × Value))
    (entries : List (String × ConfigElement)) (elts : List ConfigElement)
    (n : Int) (t : String) (e : ConfigElement)
    (h : refFree e = true) :
    mapKeysOf (completeDependencies s ctx (ConfigElement.cmap entries)).1 =
      some (entries.map Prod.fst) ∧
    listLenOf (completeDependencies s ctx (ConfigElement.clist elts)).1 =
      some elts.length ∧
    completeDependencies s ctx (ConfigElement.scalar n) =
      (Value.scalar n, s) ∧
    completeDependencies s ctx (ConfigElement.str t) = (Value.str t, s) ∧
    completeDependencies s ctx e = (embed e, s) := by
  refine ⟨?_, ?_, ?_, ?_, ?_⟩
  · simp [completeDependencies, mapKeysOf, cdEntries_keys]
  · simp [completeDependencies, listLenOf, cdElts_len]
  · simp [completeDependencies]
  · simp [completeDependencies]
  · exact (roundTripAux (sizeOf e)).1 e le_rfl h s ctx

/-- Witness for C8 on a small reference-free tree. -/
theorem c8_structure_preserved_witness :
    refFree (ConfigElement.cmap [("a", ConfigElement.scalar 1),
      ("b", ConfigElement.clist [ConfigElement.str "x"])]) = true ∧
    completeDependencies ⟨[], 0⟩ []
        (ConfigElement.cmap [("a", ConfigElement.scalar 1),
          ("b", ConfigElement.clist [ConfigElement.str "x"])]) =
      (embed (ConfigElement.cmap [("a", ConfigElement.scalar 1),
        ("b", ConfigElement.clist [ConfigElement.str "x"])]), ⟨[], 0⟩) :=
  ⟨by simp [refFree, refFreeEntries, refFreeElts],
   (c8_structure_preserved ⟨[], 0⟩ [] [] [] 0 ""
      (ConfigElement.cmap [("a", ConfigElement.scalar 1),
        ("b", ConfigElement.clist [ConfigElement.str "x"])])
      (by simp [refFree, refFreeEntries, refFreeElts])).2.2.2.2⟩

/-- C3: when the backend scan response is truncated (a
`LastEvaluatedKey` is present), `unmarked` fails with the pagination
assertion before yielding any record, and `collect_garbage` — dry or
real — therefore performs no deletion and no mutation at all. -/
theorem c3_truncated_scan_fatal (table : List Record)
    (scope : List (String × String)) (deploymentId : String)
    (maxMarked : Int) (dry : Bool) (highToLow : Bool) :
    unmarked table true scope deploymentId highToLow =
      Except.error pagMsg ∧
    collectGarbage table true scope deploymentId maxMarked dry =
      Except.error pagMsg ∧
    dynamoDryCollectGarbage table true scope deploymentId maxMarked =
      ([], some pagMsg) := by
  refine ⟨?_, ?_, ?_⟩
  · simp [unmarked]
  · cases dry <;> simp [collectGarbage, unmarked]
  · simp [dynamoDryCollectGarbage]

/-- C4: the code contradicts the claim, its own recorder interface and
the spec.  `collect_garbage` (dry) asks for the intended update
`update_dependency_order(zrn, order + delta)` — at this input delta is
computed once as `7 + 1 - 3 = 5`, so the requested new order is `8` —
but `DynamoResourceRecorder.update_dependency_order` binds its
parameters as `(dependency_order, resource)` and evaluates
`resource.session` on the integer, raising an AttributeError, so the
run fails with zero dependency orders persisted. -/
theorem c4_dry_gc_update_type_error :
    collectGarbage [recStale] false [] "cur" 7 true =
      Except.ok [GcEffect.updateOrder "z1" 8] ∧
    dynamoDryCollectGarbage [recStale] false [] "cur" 7 =
      ([], some attrErrMsg) := by
  constructor
  · rfl
  · rfl

/-- C5, counterexample: a real garbage collection whose scope is empty
(no manager filter at all) is not refused — `collect_garbage` scans,
reads the stale record and deletes both the resource and its record. -/
theorem c5_counterexample :
    collectGarbage [recNoMgr] false [] "cur" 0 false =
      Except.ok [GcEffect.deleteResource "z0", GcEffect.deleteRecord "z0"] ∧
    gcProceeds (collectGarbage [recNoMgr] false [] "cur" 0 false) = true := by
  constructor
  · rfl
  · rfl

/-- C5, amended: `collect_garbage` itself performs no scope validation —
with an untruncated backend it always proceeds to scan and sweep,
whatever the scope contains; the only manager enforcement is the
`assert manager and resources_by_zrn_table` guard at the top of
`handle_cli_command`'s GC block, which refuses a falsy manager before
any record is read. -/
theorem c5_no_scope_check_in_gc :
    (∀ (table : List Record) (scope : List (String × String))
      (deploymentId : String) (maxMarked : Int),
      gcProceeds (collectGarbage table false scope deploymentId maxMarked
        false) = true) ∧
    (∀ haveTable : Bool,
      handleCliGcGuard true "" haveTable =
        Except.error "assert manager and resources_by_zrn_table") := by
  constructor
  · intro table scope deploymentId maxMarked
    simp [collectGarbage, unmarked, gcProceeds]
  · intro haveTable
    simp [handleCliGcGuard]

/-- C6, counterexample: with two stale records sharing dependency order
5, the first of which exposes a teardown capability without being an
IAM Role, the real sweep neither processes records in strictly
descending order (the orders tie) nor dispatches teardown on the
resource's capability (the non-Role resource gets no teardown call), so
the claim as stated is false. -/
theorem c6_counterexample : ¬ c6ClaimAsStated [recCap, recTie] [] "cur" 0 := by
  intro hclaim
  obtain ⟨items, h1, h2, _h3⟩ := hclaim
  have he : unmarked [recCap, recTie] false [] "cur" true =
      Except.ok [recCap, recTie] := rfl
  rw [he] at h1
  have hitems : items = [recCap, recTie] := by
    simpa using h1.symm
  subst hitems
  simp [List.chain'_cons, recCap, recTie] at h2

/-- C6, amended: the real sweep processes the unmarked records in
non-increasing (descending, possibly tied) dependency order, and each
record in sequence undergoes `delete_by_zrn`: a hardcoded
`isinstance(resource, zaws_iam.Role)` check (not a capability dispatch)
guards policy detachment and inline-policy deletion, then the resource
is deleted, then its record. -/
theorem c6_descending_sweep (table : List Record)
    (scope : List (String × String)) (deploymentId : String)
    (maxMarked : Int) :
    ∃ items,
      unmarked table false scope deploymentId true = Except.ok items ∧
      List.Sorted (fun a b => b.dependencyOrder ≤ a.dependencyOrder) items ∧
      collectGarbage table false scope deploymentId maxMarked false =
        Except.ok (realLoop items) ∧
      (∀ r rest, realLoop (r :: rest) = deleteByZrn r ++ realLoop rest) ∧
      (∀ r : Record, deleteByZrn r =
        (if r.isRole then
          [GcEffect.detachAllPolicies r.zrn,
           GcEffect.deleteInlinePolicies r.zrn]
         else []) ++
        [GcEffect.deleteResource r.zrn, GcEffect.deleteRecord r.zrn]) := by
  refine ⟨sortRecords true (table.filter (unmarkedFilter scope deploymentId)),
    ?_, ?_, ?_, ?_, ?_⟩
  · simp [unmarked]
  · exact List.sorted_insertionSort _ _
  · simp [collectGarbage, unmarked]
  · intro r rest; simp [realLoop]
  · intro r; simp [deleteByZrn]

/-- C9: within the apply pass, the record is persisted exactly for the
resources whose `put` ran and whose `exists` observation is true
afterwards (given a present, existing recorder lambda), and the record
invocation comes strictly after the put — never for a resource not
confirmed to exist. -/
theorem c9_persist_after_confirm (manager : String) (r : UIResource)
    (dependencyOrder : Int) (force : Bool) (f : RecorderFn)
    (deploymentId : String) (hf : f.fnExists = true) :
    ((ApplyEffect.invokeRecord r.ztid dependencyOrder manager deploymentId ∈
        putResourceNice manager r dependencyOrder force (some f)
          deploymentId) ↔
      (ApplyEffect.put r.ztid force ∈
        putResourceNice manager r dependencyOrder force (some f)
          deploymentId ∧
       r.existsAfterPut = true)) ∧
    ((ApplyEffect.put r.ztid force ∈
        putResourceNice manager r dependencyOrder force (some f)
          deploymentId) ↔ r.config.truthy = true) ∧
    (r.config.truthy = true → r.existsAfterPut = true →
      putResourceNice manager r dependencyOrder force (some f) deploymentId =
        [ApplyEffect.put r.ztid force,
         ApplyEffect.invokeRecord r.ztid dependencyOrder manager
           deploymentId]) := by
  cases hc : r.config.truthy <;> cases he : r.existsAfterPut <;>
    simp [putResourceNice, hf, hc, he]

/-- Witness for C9 at a resource that exists after its put. -/
theorem c9_persist_after_confirm_witness :
    (RecorderFn.mk true).fnExists = true ∧
    putResourceNice "mgr" (UIResource.mk 5 "alpha"
        (PyConfig.dict [("k", Value.scalar 1)]) true) 2 false
        (some (RecorderFn.mk true)) "dep" =
      [ApplyEffect.put 5 false,
       ApplyEffect.invokeRecord 5 2 "mgr" "dep"] :=
  ⟨rfl,
   (c9_persist_after_confirm "mgr"
      (UIResource.mk 5 "alpha" (PyConfig.dict [("k", Value.scalar 1)]) true)
      2 false (RecorderFn.mk true) "dep" rfl).2.2 rfl rfl⟩

/-- C10: a resource whose `config` attribute is falsy (`None` or an
empty mapping) makes `put_resource_nice` a no-op — no put is issued and
no record is persisted. -/
theorem c10_falsy_config_no_action (manager : String) (r : UIResource)
    (dependencyOrder : Int) (force : Bool) (recordFn : Option RecorderFn)
    (deploymentId : String) (h : r.config.truthy = false) :
    putResourceNice manager r dependencyOrder force recordFn deploymentId =
      [] := by
  simp [putResourceNice, h]

/-- Witness for C10 at a resource with `config = None` and another with
an empty config mapping. -/
theorem c10_falsy_config_no_action_witness :
    (PyConfig.truthy PyConfig.noneV = false ∧
      putResourceNice "mgr" (UIResource.mk 6 "beta" PyConfig.noneV true) 0
          true (some (RecorderFn.mk true)) "dep" = []) ∧
    (PyConfig.truthy (PyConfig.dict []) = false ∧
      putResourceNice "mgr" (UIResource.mk 7 "gamma" (PyConfig.dict [])
          true) 1 false none "dep" = []) :=
  ⟨⟨rfl, c10_falsy_config_no_action "mgr"
      (UIResource.mk 6 "beta" PyConfig.noneV true) 0 true
      (some (RecorderFn.mk true)) "dep" rfl⟩,
   ⟨rfl, c10_falsy_config_no_action "mgr"
      (UIResource.mk 7 "gamma" (PyConfig.dict []) true) 1 false none "dep"
      rfl⟩⟩

end ZsecExt
